import Mathlib

/-!
Verification development for the Login-errors repository.

The repository consists of three Python files: `loginerror.py` (reference
data loading, filename metadata parsing, the processed-files ledger, the
per-log analyzer `analyze_log`, and the folder orchestrator
`analyze_logs_in_folder` plus `main`), `analyzer.py` (a second variant of
the parsing and classification logic, `analyze_log_file`), and
`pipeline.py` (download/notify wrappers plus the ledger helpers
`read_processed`/`write_processed`).

This file shallowly embeds the pure core of those programs:

* Python string primitives (`split`, `replace`, `join`, `splitlines`,
  `strip`, substring membership, percent-decoding) are modelled on
  `List Char` / `String`.  Case mapping and character classes are modelled
  at ASCII precision, which covers every constant appearing in the source.
* Regular expressions from the source are compiled to a small backtracking
  matcher (`Re`) with literal, single-class, optional and star atoms; the
  fuel argument only bounds the recursion and is always sufficient for the
  inputs it is applied to.
* File contents are modelled as `Option String` (`none` is a failed read),
  the reference data as lists of names in iteration order, and the ledger
  as a `Finset String`.
-/

namespace Py

/-- Interpretation of an apostrophe character (U+0027), written numerically. -/
def squote : Char := Char.ofNat 39

/-- ASCII whitespace as accepted by Python `str.strip` and the regex class
for whitespace (the model restricts itself to the ASCII part, which covers
all inputs built from the source's constants). -/
def isPySpace (c : Char) : Bool :=
  c = ' ' || c = '\t' || c = '\n' || c = '\r' || c = '\x0b' || c = '\x0c'

/-- Line-boundary characters recognized by Python `str.splitlines`. -/
def isLineBreak (c : Char) : Bool :=
  c = '\n' || c = '\r' || c = '\x0b' || c = '\x0c' ||
  c = '\x1c' || c = '\x1d' || c = '\x1e' || c = '\x85' ||
  c = '\u2028' || c = '\u2029'

/-- Python `str.lower`, at ASCII precision. -/
def lower (s : String) : String := String.mk (s.data.map Char.toLower)

/-- Contiguous-sublist test: `isSubList n h` models Python `n in h`
on strings (the empty needle is contained in everything). -/
def isSubList (needle : List Char) : List Char → Bool
  | [] => needle.isEmpty
  | c :: t => needle.isPrefixOf (c :: t) || isSubList needle t

/-- Python `needle in hay` on strings. -/
def containsSub (hay needle : String) : Bool := isSubList needle.data hay.data

/-- Python `str.split(sep)` for a one-character separator: always returns
one more part than there are separators, so `""` splits to `[""]`. -/
def splitChar (sep : Char) : List Char → List (List Char)
  | [] => [[]]
  | c :: t =>
    match splitChar sep t with
    | [] => [[]]
    | h :: r => if c = sep then [] :: h :: r else (c :: h) :: r

/-- Python `sep.join(parts)`. -/
def joinWith (sep : List Char) : List (List Char) → List Char
  | [] => []
  | [a] => a
  | a :: b :: t => a ++ sep ++ joinWith sep (b :: t)

/-- Core of Python `str.replace(pat, "")` for a non-empty pattern
`p :: ps`: removes non-overlapping occurrences left to right.  After a
match at the current position the next `skip` characters belong to the
matched occurrence and are discarded. -/
def eraseOccs (p : Char) (ps : List Char) (skip : Nat) : List Char → List Char
  | [] => []
  | c :: t =>
    match skip with
    | n + 1 => eraseOccs p ps n t
    | 0 =>
      if (p :: ps).isPrefixOf (c :: t) then eraseOccs p ps ps.length t
      else c :: eraseOccs p ps 0 t

/-- Python `str.replace(pat, "")`; an empty pattern removes nothing
relevant here (all source patterns are non-empty). -/
def eraseSub (pat : List Char) (l : List Char) : List Char :=
  match pat with
  | [] => l
  | p :: ps => eraseOccs p ps 0 l

/-- Number of non-overlapping occurrences of the non-empty literal
`p :: ps`, scanning left to right: models `len(re.findall(lit, s))` for a
literal pattern; `skip` as in `eraseOccs`. -/
def countOccs (p : Char) (ps : List Char) (skip : Nat) : List Char → Nat
  | [] => 0
  | c :: t =>
    match skip with
    | n + 1 => countOccs p ps n t
    | 0 =>
      if (p :: ps).isPrefixOf (c :: t) then countOccs p ps ps.length t + 1
      else countOccs p ps 0 t

/-- Occurrence count for a literal pattern given as a list. -/
def countSub (pat : List Char) (l : List Char) : Nat :=
  match pat with
  | [] => 0
  | p :: ps => countOccs p ps 0 l

/-- Worker for `splitlines`: `acc` holds the current line reversed, and
`skipNl` records that the previous character was a carriage return whose
boundary has already been emitted, so that a directly following newline
is part of the same boundary. -/
def splitlinesGo (skipNl : Bool) (acc : List Char) : List Char → List (List Char)
  | [] => if acc.isEmpty then [] else [acc.reverse]
  | c :: t =>
    if skipNl && (c = '\n') then splitlinesGo false acc t
    else if isLineBreak c then acc.reverse :: splitlinesGo (c = '\r') [] t
    else splitlinesGo false (c :: acc) t

/-- Python `str.splitlines()`: no trailing empty line, and a final
newline does not open a new line. -/
def splitlines (l : List Char) : List (List Char) := splitlinesGo false [] l

/-- Python `str.strip()` at ASCII-whitespace precision. -/
def pyStrip (s : String) : String :=
  String.mk (((s.data.dropWhile isPySpace).reverse.dropWhile isPySpace).reverse)

/-- Python `str.isdigit` at ASCII precision: non-empty and all digits. -/
def pyIsDigit (s : String) : Bool := !s.data.isEmpty && s.data.all Char.isDigit

/-- Index of the last occurrence of a character satisfying `p`. -/
def findLastIdx (p : Char → Bool) : List Char → Option Nat
  | [] => none
  | c :: t =>
    match findLastIdx p t with
    | some i => some (i + 1)
    | none => if p c then some 0 else none

/-- Python `pathlib.Path(name).stem`: the name without its final
extension; a dot at position 0 or at the very end opens no extension. -/
def pyStem (name : String) : String :=
  match findLastIdx (fun c => c = '.') name.data with
  | some i =>
    if 0 < i && i + 1 < name.data.length then String.mk (name.data.take i) else name
  | none => name

/-- Value of an ASCII hex digit. -/
def hexVal (c : Char) : Option Nat :=
  let n := c.toNat
  if 48 ≤ n && n ≤ 57 then some (n - 48)
  else if 97 ≤ n && n ≤ 102 then some (n - 87)
  else if 65 ≤ n && n ≤ 70 then some (n - 55)
  else none

/-- First pass of `urllib.parse.unquote`: each valid `%XX` escape becomes
a byte (`Sum.inr`), everything else stays a character (`Sum.inl`).  The
fuel is structural bookkeeping only: every step consumes at least one
character, so the wrapper's `l.length` is always sufficient. -/
def pctTokensF : Nat → List Char → List (Char ⊕ Nat)
  | 0, _ => []
  | _ + 1, [] => []
  | fuel + 1, '%' :: a :: b :: t =>
    match hexVal a, hexVal b with
    | some hi, some lo => Sum.inr (16 * hi + lo) :: pctTokensF fuel t
    | _, _ => Sum.inl '%' :: pctTokensF fuel (a :: b :: t)
  | fuel + 1, c :: t => Sum.inl c :: pctTokensF fuel t

/-- Escape tokenization of a full character list. -/
def pctTokens (l : List Char) : List (Char ⊕ Nat) := pctTokensF l.length l

/-- Unicode replacement character U+FFFD. -/
def replCh : Char := Char.ofNat 0xfffd

/-- UTF-8 continuation byte test. -/
def contOk (b : Nat) : Bool := 128 ≤ b && b < 192

/-- UTF-8 decoding of a byte run with replacement on error, as performed
by `unquote`'s `errors="replace"` decoding.  A malformed or truncated
sequence yields a single replacement character for the inspected bytes
(Python may resynchronize slightly differently inside malformed non-UTF-8
data; no input formed from the source's constants is affected). -/
def utf8Decode : List Nat → List Char
  | [] => []
  | b :: bs =>
    if b < 128 then Char.ofNat b :: utf8Decode bs
    else if 194 ≤ b && b ≤ 223 then
      match bs with
      | b2 :: bs2 =>
        if contOk b2 then Char.ofNat ((b - 192) * 64 + (b2 - 128)) :: utf8Decode bs2
        else replCh :: utf8Decode bs2
      | [] => [replCh]
    else if 224 ≤ b && b ≤ 239 then
      match bs with
      | b2 :: b3 :: bs3 =>
        if contOk b2 && contOk b3 then
          Char.ofNat ((b - 224) * 4096 + (b2 - 128) * 64 + (b3 - 128)) :: utf8Decode bs3
        else replCh :: utf8Decode bs3
      | _ => [replCh]
    else if 240 ≤ b && b ≤ 244 then
      match bs with
      | b2 :: b3 :: b4 :: bs4 =>
        if contOk b2 && contOk b3 && contOk b4 then
          Char.ofNat ((b - 240) * 262144 + (b2 - 128) * 4096 + (b3 - 128) * 64 + (b4 - 128))
            :: utf8Decode bs4
        else replCh :: utf8Decode bs4
      | _ => [replCh]
    else replCh :: utf8Decode bs

/-- Second pass of `unquote`, with the current (reversed) run of escape
bytes as accumulator: maximal runs of escape bytes are UTF-8 decoded,
other characters pass through. -/
def renderAux (run : List Nat) : List (Char ⊕ Nat) → List Char
  | [] => utf8Decode run.reverse
  | Sum.inr b :: t => renderAux (b :: run) t
  | Sum.inl c :: t => utf8Decode run.reverse ++ c :: renderAux [] t

/-- Second pass of `unquote` on a whole token list. -/
def renderTokens (l : List (Char ⊕ Nat)) : List Char := renderAux [] l

/-- Python `urllib.parse.unquote` (UTF-8, `errors="replace"`). -/
def unquote (s : String) : String := String.mk (renderTokens (pctTokens s.data))

/-- Code-point lexicographic comparison on character lists: the ordering
Python uses to compare and sort strings. -/
def lexLe : List Char → List Char → Bool
  | [], _ => true
  | _ :: _, [] => false
  | a :: as, b :: bs =>
    if a.toNat < b.toNat then true
    else if b.toNat < a.toNat then false
    else lexLe as bs

end Py

/-! ### A small backtracking regex engine

Each source regex is a sequence of atoms: a literal, a single character
from a class, an optional character from a class, or a starred class.
`matchSeq` decides whether a pattern matches a prefix of the text,
backtracking through `opt`/`star`; `reSearch` is `re.search`, trying every
start position.  The `Nat` fuel only bounds the recursion depth; every
transition either shortens the text or the pattern, so
`(pattern length + 1) * (text length + 1)` fuel is always enough. -/

namespace Re

inductive Atom where
  | lit : List Char → Atom
  | cls : (Char → Bool) → Atom
  | opt : (Char → Bool) → Atom
  | star : (Char → Bool) → Atom

/-- Does the atom sequence match some prefix of the text?  Backtracking
matcher with fuel. -/
def matchSeq : Nat → List Atom → List Char → Bool
  | 0, _, _ => false
  | _ + 1, [], _ => true
  | fuel + 1, a :: rs, t =>
    match a with
    | .lit s => s.isPrefixOf t && matchSeq fuel rs (t.drop s.length)
    | .cls p =>
      match t with
      | [] => false
      | c :: t2 => p c && matchSeq fuel rs t2
    | .opt p =>
      matchSeq fuel rs t ||
        (match t with
         | [] => false
         | c :: t2 => p c && matchSeq fuel rs t2)
    | .star p =>
      matchSeq fuel rs t ||
        (match t with
         | [] => false
         | c :: t2 => p c && matchSeq fuel (Atom.star p :: rs) t2)

/-- Entry point with sufficient fuel. -/
def matchRe (rx : List Atom) (t : List Char) : Bool :=
  matchSeq ((rx.length + 1) * (t.length + 1)) rx t

/-- Python `re.search`: try to match at every start position. -/
def reSearch (rx : List Atom) : List Char → Bool
  | [] => matchRe rx []
  | c :: t => matchRe rx (c :: t) || reSearch rx t

/-- Case-insensitive search, modelling `pattern.search(text)` for a
pattern compiled with IGNORECASE: the text is lowercased and every
pattern constant is written lowercase. -/
def searchCI (rx : List Atom) (text : String) : Bool :=
  reSearch rx ((Py.lower text).data)

end Re

/-! ### Shared data model -/

/-- Reference data after loading: `companies`/`locations` name lists in
iteration order, as produced by `load_known_entities`. -/
structure Known where
  companies : List String
  locations : List String
deriving DecidableEq

/-- A candidate artifact: its file name and the outcome of reading its
text (`none` models a read that raises). -/
structure FileEntry where
  name : String
  content : Option String
deriving DecidableEq

/-- One row of `loginerror.analyze_log`'s result dict. -/
structure Finding where
  company : String
  location : String
  time : String
  label : String
  link : String
deriving DecidableEq

namespace Loginerror

/-- Class for the regex whitespace escape (ASCII part). -/
def wsp : Char → Bool := Py.isPySpace

/-- Class for an unrestricted dot (with the DOTALL flag). -/
def anyChar : Char → Bool := fun _ => true

/-- Class for a dot without DOTALL: anything but a newline. -/
def notNl : Char → Bool := fun c => !(c = '\n')

/-- First rule regex of loginerror.py (patterns are written lowercase and
matched against lowercased text, modelling the IGNORECASE flag). -/
def rxAuthUnknown : List Re.Atom :=
  [.lit ("exception occurred:").data, .star wsp,
   .lit ("unknown error during authentication").data]

/-- Second rule regex of loginerror.py. -/
def rxAuthPointer : List Re.Atom :=
  [.lit ("exception occurred:").data, .star wsp, .lit ("find_by_image").data,
   .star notNl, .lit ("element pointer").data]

/-- Third rule regex of loginerror.py (DOTALL). -/
def rxRegistration : List Re.Atom :=
  [.lit ("wait_for_condition").data, .star anyChar,
   .lit ([Py.squote] ++ ("part_image").data ++ [Py.squote])]

/-- The ordered rule list `ERROR_PATTERNS` of loginerror.py. -/
def ERROR_PATTERNS : List (List Re.Atom × String) :=
  [(rxAuthUnknown, "Authentifizierung"),
   (rxAuthPointer, "Authentifizierung"),
   (rxRegistration, "Registrierung?")]

/-- Module constant `SKIP_HAS_PROCESSES_PATTERN` (unused by
`analyze_log`, kept for completeness). -/
def SKIP_HAS_PROCESSES_PATTERN : List Re.Atom :=
  [.lit ("debug").data, .star wsp, .lit ([Char.ofNat 45]), .star wsp,
   .lit ("starting with process").data]

/-- Module constant `IGNORE_ZERO_NO_TASKS_PATTERN` (defined in
loginerror.py but never consulted by `analyze_log`). -/
def IGNORE_ZERO_NO_TASKS_PATTERN : List Re.Atom :=
  [.lit ("couldn").data, .opt notNl, .lit ("t").data, .cls wsp, .star wsp,
   .lit ("find any potential processes").data]

/-- Search used by the classification loop; `pattern.search(text)` for
the IGNORECASE-compiled rule patterns. -/
def searchPat (rx : List Re.Atom) (text : String) : Bool := Re.searchCI rx text

/-- The classification loop of `analyze_log` (lines 151-155): the label of
the first rule whose pattern matches, `""` when none does. -/
def classifyLabel (pats : List (List Re.Atom × String)) (text : String) : String :=
  match pats.find? (fun pr => searchPat pr.1 text) with
  | some pr => pr.2
  | none => ""

/-- The normalizer `norm` inside `parse_filename`:
`str(s).lower().replace(" ", "").replace("-", "").replace("_", "")`. -/
def norm (s : String) : String :=
  String.mk (Py.eraseSub [Char.ofNat 95]
    (Py.eraseSub [Char.ofNat 45]
      (Py.eraseSub [' '] ((Py.lower s).data))))

/-- The membership test of the entity-resolution generator expression:
`norm(c) in norm(remaining)`. -/
def companyMatch (c remaining : String) : Bool :=
  Py.isSubList (norm c).data (norm remaining).data

/-- `next((c for c in companies if norm(c) in norm(remaining)), None)`:
first match in iteration order. -/
def findCompany (companies : List String) (remaining : String) : Option String :=
  companies.find? (fun c => companyMatch c remaining)

/-- Python `x or "Unknown"` on an optional string: `None` and the empty
string are falsy. -/
def orUnknown (o : Option String) : String :=
  match o with
  | some s => if s = "" then "Unknown" else s
  | none => "Unknown"

/-- The `format_time` helper of `parse_filename`: a stripped 4-digit
token `HHMM` becomes `HH:MM`, anything else is returned unchanged. -/
def format_time (s : String) : String :=
  let t := Py.pyStrip s
  if t.data.length = 4 && Py.pyIsDigit t then
    String.mk (t.data.take 2 ++ [':'] ++ t.data.drop 2)
  else t

/-- The token list `parts` of `parse_filename`: percent-decode the stem,
remove the fixed suffix token sequence, split on the separator. -/
def cleanedTokens (filename_stem : String) : List String :=
  ((Py.splitChar '-'
    (Py.eraseSub ("-order-bot-ispa-log").data (Py.unquote filename_stem).data)).map
      String.mk)

/-- The `remaining` string of `parse_filename`: all tokens after date and
time, space-joined. -/
def remainingOf (filename_stem : String) : String :=
  String.mk (Py.joinWith [' '] (((cleanedTokens filename_stem).drop 2).map String.data))

/-- Result record of `loginerror.parse_filename`. -/
structure Meta where
  date : String
  time : String
  company : String
  location : String
deriving DecidableEq

/-- `loginerror.parse_filename` (lines 74-112). -/
def parse_filename (filename_stem : String) (known : Known) : Meta :=
  let parts := cleanedTokens filename_stem
  if parts.length < 3 then
    ⟨"Unknown", "Unknown", "Unknown", "Unknown"⟩
  else
    let date_str := parts.headD ""
    let time_str := parts.getD 1 ""
    let remaining := remainingOf filename_stem
    let company := findCompany known.companies remaining
    let location := known.locations.find? (fun l => companyMatch l remaining)
    ⟨date_str, format_time time_str, orUnknown company, orUnknown location⟩

/-- `load_processed_list` (lines 119-123): `none` models a missing ledger
file, otherwise the line set of the file text. -/
def load_processed_list (file : Option String) : Finset String :=
  match file with
  | none => ∅
  | some s => ((Py.splitlines s.data).map String.mk).toFinset

/-- `save_processed_list` (lines 125-127): newline-join of the sorted
name list. -/
def save_processed_list (processed : Finset String) : String :=
  String.mk (Py.joinWith ['\n'] ((processed.sort (· ≤ ·)).map String.data))

/-- Marker gating `analyze_log`: logs containing it are skipped. -/
def loginSuccessMarker : String := "Login successful"

/-- `loginerror.analyze_log` (lines 134-167): `none` on read failure or
for a log containing the success marker; otherwise a result row whose
label may be empty. -/
def analyze_log (f : FileEntry) (known : Known) : Option Finding :=
  match f.content with
  | none => none
  | some text =>
    if Py.containsSub text loginSuccessMarker then none
    else
      let label := classifyLabel ERROR_PATTERNS text
      let meta := parse_filename (Py.pyStem f.name) known
      some ⟨meta.company, meta.location, meta.time, label, ""⟩

/-- Insertion step of the stable by-name sort. -/
def insertByName (f : FileEntry) : List FileEntry → List FileEntry
  | [] => [f]
  | g :: t =>
    if Py.lexLe f.name.data g.name.data then f :: g :: t else g :: insertByName f t

/-- Stable sort of the folder listing by file name, modelling
`sorted(folder.glob("*.txt"))` (paths in one folder compare by name, in
code-point lexicographic order). -/
def sortByName : List FileEntry → List FileEntry
  | [] => []
  | f :: t => insertByName f (sortByName t)

/-- Loop body of `analyze_logs_in_folder` over the sorted listing: skip
entries failing the today filter (they stay out of `newly`), skip entries
already in the ledger, otherwise analyze, collect any finding, and add the
name to `newly` either way. -/
def analyzeLoop (known : Known) (only_today : Bool) (today_str : String)
    (processed : Finset String) : List FileEntry → List Finding × Finset String
  | [] => ([], ∅)
  | f :: fs =>
    if only_today && !(Py.containsSub f.name today_str) then
      analyzeLoop known only_today today_str processed fs
    else if f.name ∈ processed then
      analyzeLoop known only_today today_str processed fs
    else
      let rest := analyzeLoop known only_today today_str processed fs
      match analyze_log f known with
      | some r => (r :: rest.1, insert f.name rest.2)
      | none => (rest.1, insert f.name rest.2)

/-- `analyze_logs_in_folder` (lines 173-229).  `folder_exists` models the
existence check (a missing folder yields `([], ∅)`); `files` is the
`*.txt` listing of the folder and `today_str` the `YYYYMMDD` stamp
computed from the clock. -/
def analyze_logs_in_folder (folder_exists : Bool) (files : List FileEntry)
    (only_today : Bool) (today_str : String) (known : Known)
    (processed_files : Finset String) : List Finding × Finset String :=
  if folder_exists then
    analyzeLoop known only_today today_str processed_files (sortByName files)
  else ([], ∅)

end Loginerror

namespace Analyzer

/-- The ordered rule list `ERROR_PATTERNS` of analyzer.py (labels differ
from loginerror.py's, and the third pattern has no DOTALL flag). -/
def ERROR_PATTERNS : List (List Re.Atom × String) :=
  [([.lit ("exception occurred:").data, .star Loginerror.wsp,
     .lit ("unknown error during authentication").data], "auth?"),
   ([.lit ("exception occurred:").data, .star Loginerror.wsp,
     .lit ("find_by_image").data, .star Loginerror.notNl,
     .lit ("element pointer").data], "auth?"),
   ([.lit ("exception occurred:").data, .star Loginerror.wsp,
     .lit ("wait_for_condition").data, .star Loginerror.notNl,
     .lit ("automation_id").data], "Registrierung?")]

/-- Regex `SKIP_NO_WORK` of analyzer.py: the no-work marker with an
optional apostrophe. -/
def SKIP_NO_WORK : List Re.Atom :=
  [.lit ("couldn").data, .opt (fun c => c = Py.squote),
   .lit ("t find any potential processes").data]

/-- Number of matches of `PROCESS_PATTERN` (a case-insensitive literal),
modelling `len(PROCESS_PATTERN.findall(text))`. -/
def countProcesses (text : String) : Nat :=
  Py.countSub ("starting with process").data ((Py.lower text).data)

/-- One entry of the company map built by `load_companies`: the dict for
one company; an absent or empty `URL_Name`/`URL_ID` is modelled by `""`
(both are falsy in the source's `not c.get(...)` tests). -/
structure CompanyRec where
  name : String
  urlName : String
  urlId : String
deriving DecidableEq

/-- `make_job_link` (lines 43-50). -/
def make_job_link (company : String) (cmap : List CompanyRec) : Option String :=
  match cmap.find? (fun c => c.name = company) with
  | none => none
  | some c =>
    if c.urlName = "" || c.urlId = "" then none
    else some ("https://ispa.bmwgroup.net/jobdetails/" ++ c.urlName ++ "/" ++ c.urlId)

/-- Result record of `analyzer.parse_filename`. -/
structure AMeta where
  date : String
  time : String
  remaining_raw : String
  remaining_norm : String
deriving DecidableEq

/-- The `fmt_time` helper of `analyzer.parse_filename`. -/
def fmt_time (x : String) : String :=
  if Py.pyIsDigit x && x.data.length = 4 then
    String.mk (x.data.take 2 ++ [':'] ++ x.data.drop 2)
  else x

/-- `analyzer.parse_filename` (lines 57-83), taking the artifact's file
name (the source takes the path and reads its stem). -/
def parse_filename (name : String) : AMeta :=
  let cleaned := Py.eraseSub ("-order-bot-ispa-log").data (Py.pyStem name).data
  let parts := (Py.splitChar '-' cleaned).map String.mk
  let date_str := parts.headD ""
  let time_raw := parts.getD 1 ""
  let rest := if parts.length > 2 then parts.drop 2 else []
  let joined := String.mk (Py.joinWith [' '] (rest.map String.data))
  ⟨date_str, fmt_time time_raw, joined,
   String.mk (Py.eraseSub [' ']
     (Py.eraseSub [Char.ofNat 45] ((Py.lower joined).data)))⟩

/-- The per-company normalizer of the resolution loop (lines 120-126):
`comp_name.lower().replace(" ", "").replace("-", "")` — the underscore is
not stripped. -/
def anorm (s : String) : String :=
  String.mk (Py.eraseSub [Char.ofNat 45] (Py.eraseSub [' '] ((Py.lower s).data)))

/-- The membership test of the resolution loop (lines 122-124):
`if norm and norm in remaining_norm` — the normalized name must be
non-empty and contained in the normalized remainder. -/
def keyMatch (k remaining_norm : String) : Bool :=
  !(anorm k = "") && Py.isSubList (anorm k).data remaining_norm.data

/-- The company-resolution loop of `analyze_log_file` (lines 120-126):
first key whose non-empty normalized name is contained in the normalized
remainder. -/
def findKey (keys : List String) (remaining_norm : String) : Option String :=
  keys.find? (fun k => keyMatch k remaining_norm)

/-- Resolution result with the source's `"Unknown"` default. -/
def resolveCompany (keys : List String) (remaining_norm : String) : String :=
  (findKey keys remaining_norm).getD "Unknown"

/-- The trailing window `"\n".join(text.strip().splitlines()[-12:])`. -/
def tailLines (text : String) : String :=
  let lines := Py.splitlines (Py.pyStrip text).data
  String.mk (Py.joinWith ['\n'] (lines.drop (lines.length - 12)))

/-- The classification loop of `analyze_log_file` (lines 109-114): first
matching rule over the trailing window, `"unknown"` when none matches. -/
def classifyTail (text : String) : String :=
  match ERROR_PATTERNS.find? (fun pr => Re.searchCI pr.1 (tailLines text)) with
  | some pr => pr.2
  | none => "unknown"

/-- One result row of `analyze_log_file`. -/
structure ARow where
  date : String
  time : String
  company : String
  location : String
  label : String
  link : String
  filename : String
deriving DecidableEq

/-- `analyzer.analyze_log_file` (lines 90-142): `none` on read failure,
a nonzero process count, or the no-work marker; otherwise a row whose
label defaults to `"unknown"`. -/
def analyze_log_file (f : FileEntry) (cmap : List CompanyRec) : Option ARow :=
  match f.content with
  | none => none
  | some text =>
    if !(countProcesses text = 0) then none
    else if Re.searchCI SKIP_NO_WORK text then none
    else
      let label := classifyTail text
      let meta := parse_filename f.name
      let company := resolveCompany (cmap.map (fun c => c.name)) meta.remaining_norm
      let link := (make_job_link company cmap).getD ""
      some ⟨meta.date, meta.time, company, "Unknown", label, link, f.name⟩

end Analyzer

namespace Pipeline

/-- `pipeline.read_processed` (lines 58-61): line set of the ledger file,
empty when the file does not exist. -/
def read_processed (file : Option String) : Finset String :=
  match file with
  | none => ∅
  | some s => ((Py.splitlines s.data).map String.mk).toFinset

/-- `pipeline.write_processed` (lines 64-65): newline-join of the sorted
name list. -/
def write_processed (s : Finset String) : String :=
  String.mk (Py.joinWith ['\n'] ((s.sort (· ≤ ·)).map String.data))

end Pipeline

/-! ### Helper lemmas about the orchestrator loop -/

namespace Loginerror

theorem analyzeLoop_cons_filter (k : Known) (ot : Bool) (td : String)
    (p : Finset String) (f : FileEntry) (fs : List FileEntry)
    (h1 : (ot && !(Py.containsSub f.name td)) = true) :
    analyzeLoop k ot td p (f :: fs) = analyzeLoop k ot td p fs := by
  simp [analyzeLoop, h1]

theorem analyzeLoop_cons_seen (k : Known) (ot : Bool) (td : String)
    (p : Finset String) (f : FileEntry) (fs : List FileEntry)
    (h1 : (ot && !(Py.containsSub f.name td)) = false) (h2 : f.name ∈ p) :
    analyzeLoop k ot td p (f :: fs) = analyzeLoop k ot td p fs := by
  simp [analyzeLoop, h1, h2]

theorem analyzeLoop_cons_none (k : Known) (ot : Bool) (td : String)
    (p : Finset String) (f : FileEntry) (fs : List FileEntry)
    (h1 : (ot && !(Py.containsSub f.name td)) = false) (h2 : f.name ∉ p)
    (ha : analyze_log f k = none) :
    analyzeLoop k ot td p (f :: fs) =
      ((analyzeLoop k ot td p fs).1, insert f.name (analyzeLoop k ot td p fs).2) := by
  simp [analyzeLoop, h1, h2, ha]

theorem analyzeLoop_cons_some (k : Known) (ot : Bool) (td : String)
    (p : Finset String) (f : FileEntry) (fs : List FileEntry) (r : Finding)
    (h1 : (ot && !(Py.containsSub f.name td)) = false) (h2 : f.name ∉ p)
    (ha : analyze_log f k = some r) :
    analyzeLoop k ot td p (f :: fs) =
      (r :: (analyzeLoop k ot td p fs).1, insert f.name (analyzeLoop k ot td p fs).2) := by
  simp [analyzeLoop, h1, h2, ha]

theorem analyzeLoop_snd_cons_insert (k : Known) (ot : Bool) (td : String)
    (p : Finset String) (f : FileEntry) (fs : List FileEntry)
    (h1 : (ot && !(Py.containsSub f.name td)) = false) (h2 : f.name ∉ p) :
    (analyzeLoop k ot td p (f :: fs)).2 = insert f.name (analyzeLoop k ot td p fs).2 := by
  cases ha : analyze_log f k with
  | none => rw [analyzeLoop_cons_none k ot td p f fs h1 h2 ha]
  | some r => rw [analyzeLoop_cons_some k ot td p f fs r h1 h2 ha]

/-- Once every name the loop would record is already in the ledger, the
loop yields no findings and no new names. -/
theorem analyzeLoop_second_empty (k : Known) (ot : Bool) (td : String) :
    ∀ (L : List FileEntry) (p q : Finset String),
      p ∪ (analyzeLoop k ot td p L).2 ⊆ q → analyzeLoop k ot td q L = ([], ∅) := by
  intro L
  induction L with
  | nil => intro p q _; rfl
  | cons f fs ih =>
    intro p q h
    by_cases h1 : (ot && !(Py.containsSub f.name td)) = true
    · rw [analyzeLoop_cons_filter k ot td q f fs h1]
      rw [analyzeLoop_cons_filter k ot td p f fs h1] at h
      exact ih p q h
    · rw [Bool.not_eq_true] at h1
      by_cases h2 : f.name ∈ p
      · have hq : f.name ∈ q := h (Finset.mem_union_left _ h2)
        rw [analyzeLoop_cons_seen k ot td q f fs h1 hq]
        rw [analyzeLoop_cons_seen k ot td p f fs h1 h2] at h
        exact ih p q h
      · have e1 := analyzeLoop_snd_cons_insert k ot td p f fs h1 h2
        have hq : f.name ∈ q := by
          refine h (Finset.mem_union_right _ ?_)
          rw [e1]
          exact Finset.mem_insert_self _ _
        rw [analyzeLoop_cons_seen k ot td q f fs h1 hq]
        refine ih p q ?_
        intro x hx
        refine h ?_
        rcases Finset.mem_union.mp hx with hxp | hx2
        · exact Finset.mem_union_left _ hxp
        · refine Finset.mem_union_right _ ?_
          rw [e1]
          exact Finset.mem_insert_of_mem hx2

/-- The loop distributes over list append (the ledger argument is fixed
throughout a batch). -/
theorem analyzeLoop_append (k : Known) (ot : Bool) (td : String) (p : Finset String) :
    ∀ (u v : List FileEntry),
      analyzeLoop k ot td p (u ++ v) =
        ((analyzeLoop k ot td p u).1 ++ (analyzeLoop k ot td p v).1,
         (analyzeLoop k ot td p u).2 ∪ (analyzeLoop k ot td p v).2) := by
  intro u
  induction u with
  | nil =>
    intro v
    show analyzeLoop k ot td p v = _
    rw [show analyzeLoop k ot td p [] = ([], ∅) from rfl]
    simp
  | cons f u' ih =>
    intro v
    by_cases h1 : (ot && !(Py.containsSub f.name td)) = true
    · rw [List.cons_append, analyzeLoop_cons_filter k ot td p f _ h1,
        analyzeLoop_cons_filter k ot td p f _ h1]
      exact ih v
    · rw [Bool.not_eq_true] at h1
      by_cases h2 : f.name ∈ p
      · rw [List.cons_append, analyzeLoop_cons_seen k ot td p f _ h1 h2,
          analyzeLoop_cons_seen k ot td p f _ h1 h2]
        exact ih v
      · cases ha : analyze_log f k with
        | none =>
          rw [List.cons_append, analyzeLoop_cons_none k ot td p f _ h1 h2 ha,
            analyzeLoop_cons_none k ot td p f _ h1 h2 ha, ih v]
          exact Prod.ext rfl (Finset.insert_union _ _ _).symm
        | some r =>
          rw [List.cons_append, analyzeLoop_cons_some k ot td p f _ r h1 h2 ha,
            analyzeLoop_cons_some k ot td p f _ r h1 h2 ha, ih v]
          exact Prod.ext rfl (Finset.insert_union _ _ _).symm

/-- Inserting a candidate that analyzes to `none` into a batch changes no
finding and only adds the candidate's name to the newly-seen set. -/
theorem analyzeLoop_insert_none (k : Known) (ot : Bool) (td : String)
    (p : Finset String) (xs ys : List FileEntry) (f : FileEntry)
    (h1 : (ot && !(Py.containsSub f.name td)) = false) (h2 : f.name ∉ p)
    (ha : analyze_log f k = none) :
    (analyzeLoop k ot td p (xs ++ f :: ys)).1 = (analyzeLoop k ot td p (xs ++ ys)).1 ∧
    (analyzeLoop k ot td p (xs ++ f :: ys)).2 =
      insert f.name (analyzeLoop k ot td p (xs ++ ys)).2 := by
  have e1 := analyzeLoop_append k ot td p xs (f :: ys)
  have e2 := analyzeLoop_append k ot td p xs ys
  have e3 := analyzeLoop_cons_none k ot td p f ys h1 h2 ha
  constructor
  · rw [e1, e2, e3]
  · rw [e1, e2, e3]
    show _ ∪ insert f.name _ = _
    rw [Finset.union_insert]

/-- Inserting a candidate that analyzes to `some r` into a batch adds
exactly the finding `r` (in position) and the candidate's name. -/
theorem analyzeLoop_insert_some (k : Known) (ot : Bool) (td : String)
    (p : Finset String) (xs ys : List FileEntry) (f : FileEntry) (r : Finding)
    (h1 : (ot && !(Py.containsSub f.name td)) = false) (h2 : f.name ∉ p)
    (ha : analyze_log f k = some r) :
    (analyzeLoop k ot td p (xs ++ f :: ys)).1 =
      (analyzeLoop k ot td p xs).1 ++ r :: (analyzeLoop k ot td p ys).1 ∧
    (analyzeLoop k ot td p (xs ++ f :: ys)).2 =
      insert f.name (analyzeLoop k ot td p (xs ++ ys)).2 := by
  have e1 := analyzeLoop_append k ot td p xs (f :: ys)
  have e2 := analyzeLoop_append k ot td p xs ys
  have e3 := analyzeLoop_cons_some k ot td p f ys r h1 h2 ha
  constructor
  · rw [e1, e3]
  · rw [e1, e2, e3]
    show _ ∪ insert f.name _ = _
    rw [Finset.union_insert]

end Loginerror

/-! ### Claim theorems -/

/-- Claim C1: running the orchestrator a second time on the unchanged
candidate set, after the ledger has been committed with the first run's
newly-seen set (`main` persists `processed ∪ newly`), yields an empty
findings list and an empty newly-seen set. -/
theorem c1_orchestrator_idempotent (folder_exists : Bool) (files : List FileEntry)
    (only_today : Bool) (today_str : String) (known : Known) (processed : Finset String) :
    Loginerror.analyze_logs_in_folder folder_exists files only_today today_str known
      (processed ∪
        (Loginerror.analyze_logs_in_folder folder_exists files only_today today_str known
          processed).2) = ([], ∅) := by
  cases folder_exists with
  | false => rfl
  | true =>
    exact Loginerror.analyzeLoop_second_empty known only_today today_str
      (Loginerror.sortByName files) processed _ (Finset.Subset.refl _)

/-- Claim C8: a candidate artifact whose content read fails analyzes to
`none`, contributes no finding, does not disturb the rest of the batch,
and its name is still recorded as newly seen. -/
theorem c8_unreadable_marked_seen (known : Known) (ot : Bool) (td : String)
    (p : Finset String) (xs ys : List FileEntry) (bad : FileEntry)
    (hread : bad.content = none)
    (hfilter : (ot && !(Py.containsSub bad.name td)) = false)
    (hseen : bad.name ∉ p) :
    Loginerror.analyze_log bad known = none ∧
    (Loginerror.analyzeLoop known ot td p (xs ++ bad :: ys)).1 =
      (Loginerror.analyzeLoop known ot td p (xs ++ ys)).1 ∧
    (Loginerror.analyzeLoop known ot td p (xs ++ bad :: ys)).2 =
      insert bad.name (Loginerror.analyzeLoop known ot td p (xs ++ ys)).2 := by
  have ha : Loginerror.analyze_log bad known = none := by
    simp [Loginerror.analyze_log, hread]
  exact ⟨ha, Loginerror.analyzeLoop_insert_none known ot td p xs ys bad hfilter hseen ha⟩

/-- Witness for C8 at a concrete unreadable artifact inside a two-file
batch. -/
theorem c8_unreadable_marked_seen_witness :
    Loginerror.analyze_log ⟨"bad.txt", none⟩ ⟨[], []⟩ = none ∧
    (Loginerror.analyzeLoop ⟨[], []⟩ false "" ∅
      ([⟨"a.txt", some ("x")⟩] ++ ⟨"bad.txt", none⟩ :: [])).1 =
      (Loginerror.analyzeLoop ⟨[], []⟩ false "" ∅ ([⟨"a.txt", some ("x")⟩] ++ [])).1 ∧
    (Loginerror.analyzeLoop ⟨[], []⟩ false "" ∅
      ([⟨"a.txt", some ("x")⟩] ++ ⟨"bad.txt", none⟩ :: [])).2 =
      insert ("bad.txt")
        (Loginerror.analyzeLoop ⟨[], []⟩ false "" ∅ ([⟨"a.txt", some ("x")⟩] ++ [])).2 :=
  c8_unreadable_marked_seen ⟨[], []⟩ false "" ∅ [⟨"a.txt", some ("x")⟩] []
    ⟨"bad.txt", none⟩ rfl rfl (Finset.not_mem_empty _)

/-- Counterexample to C2 as stated: an artifact whose text is exactly the
no-work marker (matched by both files' no-work regexes) is not excluded
by `loginerror.analyze_log`; it produces a finding with an empty label,
and the orchestrator puts that finding into the findings list. -/
theorem c2_gating_counterexample :
    Re.searchCI Loginerror.IGNORE_ZERO_NO_TASKS_PATTERN
      (("couldn" ++ String.mk [Py.squote]) ++ ("t find any potential processes")) = true ∧
    Re.searchCI Analyzer.SKIP_NO_WORK
      (("couldn" ++ String.mk [Py.squote]) ++ ("t find any potential processes")) = true ∧
    Loginerror.analyze_log
      ⟨"x.txt", some (("couldn" ++ String.mk [Py.squote]) ++ ("t find any potential processes"))⟩
      ⟨[], []⟩ = some ⟨"Unknown", "Unknown", "Unknown", "", ""⟩ ∧
    (Loginerror.analyze_logs_in_folder true
      [⟨"x.txt", some (("couldn" ++ String.mk [Py.squote]) ++ ("t find any potential processes"))⟩]
      false "" ⟨[], []⟩ ∅).1 = [⟨"Unknown", "Unknown", "Unknown", "", ""⟩] := by
  refine ⟨by decide, by decide, by decide, by decide⟩

/-- Claim C2, amended: `loginerror.analyze_log` excludes a readable
artifact exactly when its text contains the success marker (the no-work
marker alone does not exclude there), while `analyzer.analyze_log_file`
excludes exactly when the process count is nonzero or the no-work marker
matches; an artifact excluded by `analyze_log` is still added to the
newly-seen set and contributes nothing to the findings list. -/
theorem c2_gating_amended (known : Known) (cmap : List Analyzer.CompanyRec)
    (f : FileEntry) (text : String) (hf : f.content = some text)
    (g : FileEntry) (text2 : String) (hg : g.content = some text2) :
    (Loginerror.analyze_log f known = none ↔
      Py.containsSub text Loginerror.loginSuccessMarker = true) ∧
    (Analyzer.analyze_log_file g cmap = none ↔
      (¬ Analyzer.countProcesses text2 = 0 ∨ Re.searchCI Analyzer.SKIP_NO_WORK text2 = true)) ∧
    (∀ (ot : Bool) (td : String) (p : Finset String) (xs ys : List FileEntry),
      Loginerror.analyze_log f known = none →
      (ot && !(Py.containsSub f.name td)) = false → f.name ∉ p →
      (Loginerror.analyzeLoop known ot td p (xs ++ f :: ys)).1 =
        (Loginerror.analyzeLoop known ot td p (xs ++ ys)).1 ∧
      (Loginerror.analyzeLoop known ot td p (xs ++ f :: ys)).2 =
        insert f.name (Loginerror.analyzeLoop known ot td p (xs ++ ys)).2) := by
  refine ⟨?_, ?_, ?_⟩
  · by_cases hm : Py.containsSub text Loginerror.loginSuccessMarker = true <;>
      simp [Loginerror.analyze_log, hf, hm]
  · by_cases hc : Analyzer.countProcesses text2 = 0 <;>
      by_cases hs : Re.searchCI Analyzer.SKIP_NO_WORK text2 = true <;>
        simp [Analyzer.analyze_log_file, hg, hc, hs]
  · intro ot td p xs ys ha h1 h2
    exact Loginerror.analyzeLoop_insert_none known ot td p xs ys f h1 h2 ha

/-- Witness for C2 (amended) at concrete artifacts: a success-marker text
is excluded by loginerror's gate, a no-work text by analyzer's. -/
theorem c2_gating_amended_witness :
    Loginerror.analyze_log ⟨"s.txt", some ("xx Login successful yy")⟩ ⟨[], []⟩ = none ∧
    Analyzer.analyze_log_file ⟨"t.txt", some ("couldnt find any potential processes")⟩ [] =
      none := by
  have h := c2_gating_amended ⟨[], []⟩ [] ⟨"s.txt", some ("xx Login successful yy")⟩
    ("xx Login successful yy") rfl ⟨"t.txt", some ("couldnt find any potential processes")⟩
    ("couldnt find any potential processes") rfl
  exact ⟨h.1.mpr (by decide), h.2.1.mpr (Or.inr (by decide))⟩

/-- Counterexample to C3 as stated: an artifact matching no error rule
(classification is the empty label, the "no finding" outcome) still
contributes a finding to the orchestrator's findings list, while its name
is also added to the newly-seen set. -/
theorem c3_nofinding_counterexample :
    Loginerror.classifyLabel Loginerror.ERROR_PATTERNS ("no error content") = "" ∧
    (Loginerror.analyze_logs_in_folder true [⟨"f.txt", some ("no error content")⟩] false ""
      ⟨[], []⟩ ∅).1 = [⟨"Unknown", "Unknown", "Unknown", "", ""⟩] ∧
    ("f.txt") ∈ (Loginerror.analyze_logs_in_folder true
      [⟨"f.txt", some ("no error content")⟩] false "" ⟨[], []⟩ ∅).2 := by
  refine ⟨by decide, by decide, by decide⟩

/-- Claim C3, amended: an artifact excluded by gating contributes no
finding but its name is still newly seen; an artifact whose
classification matches no rule is nevertheless emitted as a finding with
an empty label (its name is newly seen as well). -/
theorem c3_nofinding_amended (known : Known) (ot : Bool) (td : String)
    (p : Finset String) (xs ys : List FileEntry) (f : FileEntry) (text : String)
    (hf : f.content = some text)
    (hfilter : (ot && !(Py.containsSub f.name td)) = false) (hseen : f.name ∉ p) :
    (Py.containsSub text Loginerror.loginSuccessMarker = true →
      (Loginerror.analyzeLoop known ot td p (xs ++ f :: ys)).1 =
        (Loginerror.analyzeLoop known ot td p (xs ++ ys)).1 ∧
      (Loginerror.analyzeLoop known ot td p (xs ++ f :: ys)).2 =
        insert f.name (Loginerror.analyzeLoop known ot td p (xs ++ ys)).2) ∧
    (Py.containsSub text Loginerror.loginSuccessMarker = false →
      Loginerror.classifyLabel Loginerror.ERROR_PATTERNS text = "" →
      ∃ r : Finding, Loginerror.analyze_log f known = some r ∧ r.label = "" ∧
        (Loginerror.analyzeLoop known ot td p (xs ++ f :: ys)).1 =
          (Loginerror.analyzeLoop known ot td p xs).1 ++
            r :: (Loginerror.analyzeLoop known ot td p ys).1 ∧
        (Loginerror.analyzeLoop known ot td p (xs ++ f :: ys)).2 =
          insert f.name (Loginerror.analyzeLoop known ot td p (xs ++ ys)).2) := by
  constructor
  · intro hm
    have ha : Loginerror.analyze_log f known = none := by
      simp [Loginerror.analyze_log, hf, hm]
    exact Loginerror.analyzeLoop_insert_none known ot td p xs ys f hfilter hseen ha
  · intro hm hcl
    have ha : Loginerror.analyze_log f known =
        some ⟨(Loginerror.parse_filename (Py.pyStem f.name) known).company,
          (Loginerror.parse_filename (Py.pyStem f.name) known).location,
          (Loginerror.parse_filename (Py.pyStem f.name) known).time,
          Loginerror.classifyLabel Loginerror.ERROR_PATTERNS text, ""⟩ := by
      simp [Loginerror.analyze_log, hf, hm]
    rw [hcl] at ha
    have hins := Loginerror.analyzeLoop_insert_some known ot td p xs ys f _ hfilter hseen ha
    exact ⟨_, ha, rfl, hins.1, hins.2⟩

/-- Witness for C3 (amended) at a concrete rule-free artifact. -/
theorem c3_nofinding_amended_witness :
    ∃ r : Finding,
      Loginerror.analyze_log ⟨"g.txt", some ("plain")⟩ ⟨[], []⟩ = some r ∧ r.label = "" ∧
      (Loginerror.analyzeLoop ⟨[], []⟩ false "" ∅ ([] ++ ⟨"g.txt", some ("plain")⟩ :: [])).1 =
        (Loginerror.analyzeLoop ⟨[], []⟩ false "" ∅ []).1 ++
          r :: (Loginerror.analyzeLoop ⟨[], []⟩ false "" ∅ []).1 ∧
      (Loginerror.analyzeLoop ⟨[], []⟩ false "" ∅ ([] ++ ⟨"g.txt", some ("plain")⟩ :: [])).2 =
        insert ("g.txt") (Loginerror.analyzeLoop ⟨[], []⟩ false "" ∅ ([] ++ [])).2 := by
  have h := c3_nofinding_amended ⟨[], []⟩ false "" ∅ [] [] ⟨"g.txt", some ("plain")⟩
    ("plain") rfl rfl (Finset.not_mem_empty _)
  exact h.2 (by decide) (by decide)

/-- Claim C4: a stem whose cleaned token list (percent-decoded,
suffix-stripped, separator-split) has fewer than 3 tokens parses to the
all-Unknown record, for every reference-data input, and (being a total
function) never throws. -/
theorem c4_malformed_fallback (stem : String) (known : Known)
    (h : (Loginerror.cleanedTokens stem).length < 3) :
    Loginerror.parse_filename stem known = ⟨"Unknown", "Unknown", "Unknown", "Unknown"⟩ := by
  simp [Loginerror.parse_filename, h]

/-- Witness for C4 at a concrete two-token stem and non-empty reference
data. -/
theorem c4_malformed_fallback_witness :
    Loginerror.parse_filename ("20251112") ⟨["X"], ["Y"]⟩ =
      ⟨"Unknown", "Unknown", "Unknown", "Unknown"⟩ :=
  c4_malformed_fallback ("20251112") ⟨["X"], ["Y"]⟩ (by decide)

/-! ### Ledger round-trip lemmas and claim C5 -/

namespace Py

theorem splitlinesGo_nobreak (acc : List Char) (c : Char) (t : List Char)
    (h : isLineBreak c = false) :
    splitlinesGo false acc (c :: t) = splitlinesGo false (c :: acc) t := by
  simp [splitlinesGo, h]

theorem splitlinesGo_newline (acc r : List Char) :
    splitlinesGo false acc ('\n' :: r) = acc.reverse :: splitlinesGo false [] r := by
  simp [splitlinesGo, isLineBreak]

theorem splitlinesGo_breakfree : ∀ (a acc r : List Char),
    (∀ c ∈ a, isLineBreak c = false) →
    splitlinesGo false acc (a ++ r) = splitlinesGo false (a.reverse ++ acc) r := by
  intro a
  induction a with
  | nil => intro acc r _; simp
  | cons c t ih =>
    intro acc r h
    have hc : isLineBreak c = false := h c (List.mem_cons_self c t)
    rw [List.cons_append, splitlinesGo_nobreak acc c (t ++ r) hc,
      ih (c :: acc) r (fun x hx => h x (List.mem_cons_of_mem c hx))]
    simp [List.reverse_cons, List.append_assoc]

/-- Splitting the newline-join of non-empty, line-break-free lines gives
back exactly those lines. -/
theorem splitlines_joinWith : ∀ (l : List (List Char)),
    (∀ a ∈ l, a ≠ [] ∧ ∀ c ∈ a, isLineBreak c = false) →
    splitlines (joinWith ['\n'] l) = l := by
  intro l
  induction l with
  | nil => intro _; rfl
  | cons a l' ih =>
    intro h
    have ha := h a (List.mem_cons_self a l')
    cases l' with
    | nil =>
      show splitlinesGo false [] (joinWith ['\n'] [a]) = [a]
      have hj : joinWith ['\n'] [a] = a := rfl
      have e := splitlinesGo_breakfree a [] [] ha.2
      rw [List.append_nil, List.append_nil] at e
      rw [hj, e]
      show (if a.reverse.isEmpty then [] else [a.reverse.reverse]) = [a]
      rw [List.reverse_reverse,
        if_neg (by simp [List.isEmpty_iff, ha.1])]
    | cons b t =>
      have hj : joinWith ['\n'] (a :: b :: t) = a ++ ('\n' :: joinWith ['\n'] (b :: t)) := by
        show a ++ ['\n'] ++ joinWith ['\n'] (b :: t) = _
        simp [List.append_assoc]
      show splitlinesGo false [] (joinWith ['\n'] (a :: b :: t)) = a :: b :: t
      have e := splitlinesGo_breakfree a [] ('\n' :: joinWith ['\n'] (b :: t)) ha.2
      rw [List.append_nil] at e
      rw [hj, e, splitlinesGo_newline, List.reverse_reverse]
      have ih' := ih (fun x hx => h x (List.mem_cons_of_mem a hx))
      show a :: splitlines (joinWith ['\n'] (b :: t)) = a :: b :: t
      rw [ih']

end Py

/-- Claim C5: committing the union of the prior ledger set and a batch's
names via `write_processed` and loading it back via
`load_processed_list` returns exactly that union, provided every name is
a real artifact name (non-empty and free of line-break characters); the
persisted form is the newline-join of the lexicographically sorted name
list. -/
theorem c5_ledger_roundtrip (P S : Finset String)
    (h : ∀ s ∈ P ∪ S, s ≠ "" ∧ ∀ c ∈ s.data, Py.isLineBreak c = false) :
    Loginerror.load_processed_list (some (Pipeline.write_processed (P ∪ S))) = P ∪ S ∧
    List.Sorted (· ≤ ·) (Finset.sort (· ≤ ·) (P ∪ S)) ∧
    Pipeline.write_processed (P ∪ S) =
      String.mk (Py.joinWith ['\n'] ((Finset.sort (· ≤ ·) (P ∪ S)).map String.data)) := by
  refine ⟨?_, Finset.sort_sorted _ _, rfl⟩
  show ((Py.splitlines
      (Py.joinWith ['\n'] ((Finset.sort (· ≤ ·) (P ∪ S)).map String.data))).map
        String.mk).toFinset = P ∪ S
  rw [Py.splitlines_joinWith]
  · rw [List.map_map]
    have hid : (String.mk ∘ String.data) = id := funext fun s => rfl
    rw [hid, List.map_id, Finset.sort_toFinset]
  · intro a hmem
    rw [List.mem_map] at hmem
    obtain ⟨s, hs, rfl⟩ := hmem
    have hin : s ∈ P ∪ S := (Finset.mem_sort _).mp hs
    refine ⟨?_, (h s hin).2⟩
    intro hnil
    refine (h s hin).1 ?_
    cases s with
    | mk d => cases hnil; rfl

/-- Witness for C5 at a concrete two-element ledger. -/
theorem c5_ledger_roundtrip_witness :
    Loginerror.load_processed_list
        (some (Pipeline.write_processed (({"b"} : Finset String) ∪ {"a"}))) =
      ({"b"} : Finset String) ∪ {"a"} ∧
    List.Sorted (· ≤ ·) (Finset.sort (· ≤ ·) (({"b"} : Finset String) ∪ {"a"})) ∧
    Pipeline.write_processed (({"b"} : Finset String) ∪ {"a"}) =
      String.mk (Py.joinWith ['\n']
        ((Finset.sort (· ≤ ·) (({"b"} : Finset String) ∪ {"a"})).map String.data)) :=
  c5_ledger_roundtrip {"b"} {"a"} (by decide)

/-! ### Normalization and first-match lemmas -/

namespace Py

theorem isSubList_nil : ∀ (h : List Char), isSubList [] h = true := by
  intro h
  cases h with
  | nil => rfl
  | cons c t => simp [isSubList, List.isPrefixOf]

theorem eraseOccs_single (c : Char) :
    ∀ l : List Char, eraseOccs c [] 0 l = l.filter (fun x => !(x = c)) := by
  intro l
  induction l with
  | nil => rfl
  | cons d t ih =>
    by_cases h : c = d
    · subst h
      simp [eraseOccs, List.isPrefixOf, ih, List.filter_cons]
    · simp [eraseOccs, List.isPrefixOf, h, ih, List.filter_cons]
      rw [if_neg (fun e : d = c => h e.symm)]

theorem eraseSub_single (c : Char) (l : List Char) :
    eraseSub [c] l = l.filter (fun x => !(x = c)) :=
  eraseOccs_single c l

end Py

namespace Loginerror

/-- The `norm` of loginerror.py as one filter over the lowercased
characters: spaces, hyphens and underscores are all removed. -/
theorem norm_eq (s : String) :
    norm s = String.mk ((s.data.map Char.toLower).filter
      (fun x => !(x = ' ') && !(x = Char.ofNat 45) && !(x = Char.ofNat 95))) := by
  show String.mk (Py.eraseSub [Char.ofNat 95] (Py.eraseSub [Char.ofNat 45]
    (Py.eraseSub [' '] (s.data.map Char.toLower)))) = _
  rw [Py.eraseSub_single, Py.eraseSub_single, Py.eraseSub_single,
    List.filter_filter, List.filter_filter]
  congr 1
  apply List.filter_congr
  intro x _
  cases hx1 : decide (x = ' ') <;> cases hx2 : decide (x = Char.ofNat 45) <;>
    cases hx3 : decide (x = Char.ofNat 95) <;> simp_all

end Loginerror

namespace Analyzer

/-- The normalizer of analyzer.py as one filter over the lowercased
characters: spaces and hyphens are removed, underscores are kept. -/
theorem anorm_eq (s : String) :
    anorm s = String.mk ((s.data.map Char.toLower).filter
      (fun x => !(x = ' ') && !(x = Char.ofNat 45))) := by
  show String.mk (Py.eraseSub [Char.ofNat 45]
    (Py.eraseSub [' '] (s.data.map Char.toLower))) = _
  rw [Py.eraseSub_single, Py.eraseSub_single, List.filter_filter]
  congr 1
  apply List.filter_congr
  intro x _
  cases hx1 : decide (x = ' ') <;> cases hx2 : decide (x = Char.ofNat 45) <;> simp_all

end Analyzer

/-- The first element (in order) satisfying the predicate, with all
earlier elements failing it, is what `find?` returns. -/
theorem find?_eq_of_first {α : Type} (p : α → Bool) (d : α) :
    ∀ (l : List α) (i : Nat), i < l.length → p (l.getD i d) = true →
      (∀ k, k < i → p (l.getD k d) = false) → l.find? p = some (l.getD i d) := by
  intro l
  induction l with
  | nil => intro i hi; simp at hi
  | cons a t ih =>
    intro i hi hp hk
    cases i with
    | zero =>
      rw [List.getD_cons_zero] at hp ⊢
      exact List.find?_cons_of_pos _ hp
    | succ j =>
      have h0 : p a = false := by
        have := hk 0 (Nat.succ_pos j)
        rwa [List.getD_cons_zero] at this
      rw [List.getD_cons_succ] at hp ⊢
      rw [List.find?_cons_of_neg _ (by simp [h0])]
      refine ih j (by simpa using hi) hp ?_
      intro k hkj
      have := hk (k + 1) (by omega)
      rwa [List.getD_cons_succ] at this

/-- Inserting a character that the filter rejects (after lowercasing)
into a string leaves the lowercase-then-filter normal form unchanged. -/
theorem filter_map_middle (p : Char → Bool) (c : Char) (l1 l2 : List Char)
    (h : p (Char.toLower c) = false) :
    ((l1 ++ c :: l2).map Char.toLower).filter p =
      ((l1 ++ l2).map Char.toLower).filter p := by
  simp [List.map_append, List.map_cons, List.filter_append, List.filter_cons, h]

/-- Counterexample to C6 as stated: the membership test of
`analyzer.analyze_log_file` is not underscore-insensitive.  The known
organization `ab_cd` and the filename remainder normalizing to `abcd`
match under the claimed normalization (which strips underscores, as
loginerror.py does), yet analyzer's resolution returns `Unknown`. -/
theorem c6_resolution_counterexample :
    Analyzer.resolveCompany ["ab_cd"]
      ((Analyzer.parse_filename ("x-y-abcd.txt")).remaining_norm) = "Unknown" ∧
    (Analyzer.parse_filename ("x-y-abcd.txt")).remaining_norm = "abcd" ∧
    Loginerror.companyMatch ("ab_cd") ("abcd") = true ∧
    Loginerror.norm ("ab_cd") = Loginerror.norm ("abcd") := by
  refine ⟨by decide, by decide, by decide, by decide⟩

/-- Claim C6, amended: in `loginerror.parse_filename` the membership test
is case-insensitive, insensitive to space, hyphen and underscore on both
sides, uses substring containment, and the first match in iteration order
wins; `analyzer.analyze_log_file`'s test is the same except that only
space and hyphen are stripped (underscores are kept on both sides) and
the normalized name must be non-empty. -/
theorem c6_resolution_amended :
    (∀ (companies : List String) (remaining : String) (i : Nat),
      i < companies.length →
      Loginerror.companyMatch (companies.getD i "") remaining = true →
      (∀ k, k < i → Loginerror.companyMatch (companies.getD k "") remaining = false) →
      Loginerror.findCompany companies remaining = some (companies.getD i "")) ∧
    (∀ s t : String, s.data.map Char.toLower = t.data.map Char.toLower →
      Loginerror.norm s = Loginerror.norm t) ∧
    (∀ (l1 l2 : List Char) (c : Char),
      c = ' ' ∨ c = Char.ofNat 45 ∨ c = Char.ofNat 95 →
      Loginerror.norm (String.mk (l1 ++ c :: l2)) = Loginerror.norm (String.mk (l1 ++ l2))) ∧
    (∀ (keys : List String) (rn : String) (i : Nat),
      i < keys.length →
      Analyzer.keyMatch (keys.getD i "") rn = true →
      (∀ k, k < i → Analyzer.keyMatch (keys.getD k "") rn = false) →
      Analyzer.findKey keys rn = some (keys.getD i "")) ∧
    (∀ (l1 l2 : List Char) (c : Char), c = ' ' ∨ c = Char.ofNat 45 →
      Analyzer.anorm (String.mk (l1 ++ c :: l2)) = Analyzer.anorm (String.mk (l1 ++ l2))) ∧
    (∀ s : String, (Char.ofNat 95) ∈ s.data → (Char.ofNat 95) ∈ (Analyzer.anorm s).data) := by
  refine ⟨?_, ?_, ?_, ?_, ?_, ?_⟩
  · intro companies remaining i hi hp hk
    exact find?_eq_of_first (fun c => Loginerror.companyMatch c remaining) ""
      companies i hi hp hk
  · intro s t h
    exact congrArg
      (fun x : List Char => String.mk (Py.eraseSub [Char.ofNat 95]
        (Py.eraseSub [Char.ofNat 45] (Py.eraseSub [' '] x)))) h
  · intro l1 l2 c hc
    rw [Loginerror.norm_eq, Loginerror.norm_eq]
    rcases hc with rfl | rfl | rfl
    · exact congrArg String.mk (filter_map_middle _ _ l1 l2 (by decide))
    · exact congrArg String.mk (filter_map_middle _ _ l1 l2 (by decide))
    · exact congrArg String.mk (filter_map_middle _ _ l1 l2 (by decide))
  · intro keys rn i hi hp hk
    exact find?_eq_of_first (fun k => Analyzer.keyMatch k rn) "" keys i hi hp hk
  · intro l1 l2 c hc
    rw [Analyzer.anorm_eq, Analyzer.anorm_eq]
    rcases hc with rfl | rfl
    · exact congrArg String.mk (filter_map_middle _ _ l1 l2 (by decide))
    · exact congrArg String.mk (filter_map_middle _ _ l1 l2 (by decide))
  · intro s hs
    rw [Analyzer.anorm_eq]
    show (Char.ofNat 95) ∈ ((s.data.map Char.toLower).filter _)
    rw [List.mem_filter]
    refine ⟨?_, by decide⟩
    rw [List.mem_map]
    exact ⟨Char.ofNat 95, hs, by decide⟩

/-- Witness for C6 (amended): the first-match resolution at a concrete
underscored company name against a spaced-and-hyphenated remainder. -/
theorem c6_resolution_amended_witness :
    Loginerror.findCompany ["ab_cd"] ("x ab-cd y") = some ("ab_cd") :=
  c6_resolution_amended.1 ["ab_cd"] ("x ab-cd y") 0 (by decide) (by decide)
    (fun k hk => absurd hk (Nat.not_lt_zero k))

/-- Evaluation of the classification loop when the head rule matches. -/
theorem classifyLabel_cons_pos (rx : List Re.Atom) (lbl : String)
    (rest : List (List Re.Atom × String)) (text : String)
    (h : Loginerror.searchPat rx text = true) :
    Loginerror.classifyLabel ((rx, lbl) :: rest) text = lbl := by
  unfold Loginerror.classifyLabel
  rw [List.find?_cons_of_pos _ (by exact h)]

/-- Evaluation of the classification loop when the head rule fails. -/
theorem classifyLabel_cons_neg (rx : List Re.Atom) (lbl : String)
    (rest : List (List Re.Atom × String)) (text : String)
    (h : Loginerror.searchPat rx text = false) :
    Loginerror.classifyLabel ((rx, lbl) :: rest) text =
      Loginerror.classifyLabel rest text := by
  unfold Loginerror.classifyLabel
  rw [List.find?_cons_of_neg _ (by simp [h])]

/-- The label of loginerror.py's classification loop is always one of the
two rule labels or the empty string. -/
theorem classifyLabel_mem (text : String) :
    Loginerror.classifyLabel Loginerror.ERROR_PATTERNS text = "Authentifizierung" ∨
    Loginerror.classifyLabel Loginerror.ERROR_PATTERNS text = "Registrierung?" ∨
    Loginerror.classifyLabel Loginerror.ERROR_PATTERNS text = "" := by
  by_cases h1 : Loginerror.searchPat Loginerror.rxAuthUnknown text = true
  · exact Or.inl (classifyLabel_cons_pos _ _ _ _ h1)
  · have h1' : Loginerror.searchPat Loginerror.rxAuthUnknown text = false := by
      simpa using h1
    have e1 : Loginerror.classifyLabel Loginerror.ERROR_PATTERNS text =
        Loginerror.classifyLabel [(Loginerror.rxAuthPointer, "Authentifizierung"),
          (Loginerror.rxRegistration, "Registrierung?")] text :=
      classifyLabel_cons_neg _ _ _ _ h1'
    by_cases h2 : Loginerror.searchPat Loginerror.rxAuthPointer text = true
    · exact Or.inl (e1.trans (classifyLabel_cons_pos _ _ _ _ h2))
    · have h2' : Loginerror.searchPat Loginerror.rxAuthPointer text = false := by
        simpa using h2
      have e2 := classifyLabel_cons_neg (Loginerror.rxAuthPointer) ("Authentifizierung")
        [(Loginerror.rxRegistration, "Registrierung?")] text h2'
      by_cases h3 : Loginerror.searchPat Loginerror.rxRegistration text = true
      · exact Or.inr (Or.inl (e1.trans (e2.trans (classifyLabel_cons_pos _ _ _ _ h3))))
      · have h3' : Loginerror.searchPat Loginerror.rxRegistration text = false := by
          simpa using h3
        have e3 := classifyLabel_cons_neg (Loginerror.rxRegistration) ("Registrierung?")
          [] text h3'
        exact Or.inr (Or.inr (e1.trans (e2.trans e3)))

/-- Claim C7: when the patterns of two rules of the ordered
`ERROR_PATTERNS` list both match the text, the classifier returns the
label of the rule that appears earlier in the list (the classifier is a
pure function of the text, so repeated invocations agree). -/
theorem c7_rule_order (text : String) (i j : Nat) (hij : i < j)
    (hj : j < Loginerror.ERROR_PATTERNS.length)
    (hi : Loginerror.searchPat (Loginerror.ERROR_PATTERNS.getD i ([], "")).1 text = true)
    (hjm : Loginerror.searchPat (Loginerror.ERROR_PATTERNS.getD j ([], "")).1 text = true) :
    Loginerror.classifyLabel Loginerror.ERROR_PATTERNS text =
      (Loginerror.ERROR_PATTERNS.getD i ([], "")).2 := by
  have h3 : j < 3 := by simpa [Loginerror.ERROR_PATTERNS] using hj
  have hi2 : i < 2 := by omega
  interval_cases i
  · exact classifyLabel_cons_pos _ _ _ _ hi
  · interval_cases j
    · by_cases h0 : Loginerror.searchPat Loginerror.rxAuthUnknown text = true
      · exact classifyLabel_cons_pos _ _ _ _ h0
      · have h0' : Loginerror.searchPat Loginerror.rxAuthUnknown text = false := by
          simpa using h0
        have e1 : Loginerror.classifyLabel Loginerror.ERROR_PATTERNS text =
            Loginerror.classifyLabel [(Loginerror.rxAuthPointer, "Authentifizierung"),
              (Loginerror.rxRegistration, "Registrierung?")] text :=
          classifyLabel_cons_neg _ _ _ _ h0'
        exact e1.trans (classifyLabel_cons_pos _ _ _ _ hi)

/-- Witness for C7: a text matching both the first and the third rule is
labelled by the first. -/
theorem c7_rule_order_witness :
    Loginerror.classifyLabel Loginerror.ERROR_PATTERNS
      (("Exception occurred: Unknown error during authentication wait_for_condition ") ++
        (String.mk [Py.squote] ++ ("PART_image" ++ String.mk [Py.squote]))) =
      (Loginerror.ERROR_PATTERNS.getD 0 ([], "")).2 :=
  c7_rule_order _ 0 2 (by omega) (by decide) (by decide) (by decide)

/-- Claim C9: `loginerror.analyze_log` returns `none` or a record whose
label is one of exactly `"Authentifizierung"`, `"Registrierung?"`, or the
empty string. -/
theorem c9_label_closed (f : FileEntry) (known : Known) :
    Loginerror.analyze_log f known = none ∨
    ∃ r : Finding, Loginerror.analyze_log f known = some r ∧
      (r.label = "Authentifizierung" ∨ r.label = "Registrierung?" ∨ r.label = "") := by
  cases hc : f.content with
  | none => exact Or.inl (by simp [Loginerror.analyze_log, hc])
  | some text =>
    by_cases hm : Py.containsSub text Loginerror.loginSuccessMarker = true
    · exact Or.inl (by simp [Loginerror.analyze_log, hc, hm])
    · have ha : Loginerror.analyze_log f known =
          some ⟨(Loginerror.parse_filename (Py.pyStem f.name) known).company,
            (Loginerror.parse_filename (Py.pyStem f.name) known).location,
            (Loginerror.parse_filename (Py.pyStem f.name) known).time,
            Loginerror.classifyLabel Loginerror.ERROR_PATTERNS text, ""⟩ := by
        simp [Loginerror.analyze_log, hc, hm]
      refine Or.inr ⟨_, ha, ?_⟩
      exact classifyLabel_mem text

/-- Counterexample to C10 as stated: with known companies `["ab", "-"]`
(the second consisting only of a separator) and the three-token stem
`x-y-ab`, the organization resolves to the earlier matching name `ab`,
not to the first separator-only name `-`. -/
theorem c10_separator_name_counterexample :
    Loginerror.norm ("-") = "" ∧
    (Loginerror.parse_filename ("x-y-ab") ⟨["ab", "-"], []⟩).company = "ab" ∧
    ("ab" : String) ≠ "-" := by
  refine ⟨by decide, by decide, by decide⟩

/-- Claim C10, amended: a non-empty known company name normalizing to the
empty string matches every remainder, so when no earlier company matches,
`loginerror.parse_filename` resolves the organization to that name (in
particular never to the `"Unknown"` fallback) for every stem with at
least 3 tokens; `analyzer.analyze_log_file`'s resolution guards this case
by requiring the normalized name to be non-empty, so it never selects
such a name. -/
theorem c10_separator_name_amended :
    (∀ (known : Known) (stem : String) (i : Nat),
      i < known.companies.length →
      (known.companies.getD i "") ≠ "" →
      Loginerror.norm (known.companies.getD i "") = "" →
      (∀ k, k < i →
        Loginerror.companyMatch (known.companies.getD k "")
          (Loginerror.remainingOf stem) = false) →
      ¬ (Loginerror.cleanedTokens stem).length < 3 →
      (Loginerror.parse_filename stem known).company = known.companies.getD i "") ∧
    (∀ (keys : List String) (rn : String) (k : String),
      Analyzer.findKey keys rn = some k → ¬ Analyzer.anorm k = "") := by
  constructor
  · intro known stem i hi hne hz hk hlen
    have hmatch : Loginerror.companyMatch (known.companies.getD i "")
        (Loginerror.remainingOf stem) = true := by
      unfold Loginerror.companyMatch
      rw [hz]
      exact Py.isSubList_nil _
    have hfind : Loginerror.findCompany known.companies (Loginerror.remainingOf stem) =
        some (known.companies.getD i "") :=
      find?_eq_of_first _ "" known.companies i hi hmatch hk
    simp only [Loginerror.parse_filename]
    rw [if_neg hlen]
    show Loginerror.orUnknown
      (Loginerror.findCompany known.companies (Loginerror.remainingOf stem)) = _
    rw [hfind]
    show (if known.companies.getD i "" = "" then "Unknown" else known.companies.getD i "") = _
    rw [if_neg hne]
  · intro keys rn k hf
    have hp := List.find?_some hf
    simp only [Analyzer.keyMatch, Bool.and_eq_true, Bool.not_eq_true',
      decide_eq_true_eq] at hp
    simpa using hp.1

/-- Witness for C10 (amended): with the single separator-only company
name `-`, a three-token stem resolves to it. -/
theorem c10_separator_name_amended_witness :
    (Loginerror.parse_filename ("x-y-z") ⟨["-"], []⟩).company = "-" :=
  c10_separator_name_amended.1 ⟨["-"], []⟩ ("x-y-z") 0 (by decide) (by decide)
    (by decide) (fun k hk => absurd hk (Nat.not_lt_zero k)) (by decide)
